import Mathlib

/-!
Verification of the GenStudio layout engine: a shallow embedding of the
text-layer data model, the greedy line-wrapping algorithm used by the
export rasterizer, the pointer-driven move/resize interaction handlers,
the zoom/fit scale computation, and the layout-suggestion fallback.
All numeric quantities are modelled as exact rationals.
-/

namespace GenStudio

/-- Horizontal alignment of a text layer (`align`). -/
inductive Align where
  | left
  | center
  | right
deriving DecidableEq

/-- Vertical alignment of a text layer (`verticalAlign`). -/
inductive VAlign where
  | top
  | center
  | bottom
deriving DecidableEq

/-- A text layer, as stored in `ProjectState.textLayers`. -/
structure TextLayer where
  id : String
  text : String
  x : ℚ
  y : ℚ
  color : String
  fontSize : ℚ
  fontSizePct : Option ℚ
  fontFamily : String
  fontWeight : String
  align : Align
  verticalAlign : VAlign
  boxWidth : ℚ
deriving DecidableEq

/-! ## Text layout algorithm (from `handleDownload`)

The export renderer wraps `layer.text.split(' ')` greedily: the candidate
line plus the next word plus a trailing space is measured; the line is
flushed when the measurement exceeds `maxWidth` and the loop index `n` is
positive.  After the loop the remaining candidate is pushed. -/

/-- Splits a character list on every space, keeping empty segments, as
`text.split(' ')` does. -/
def splitChars (cs : List Char) : List (List Char) :=
  match cs with
  | [] => [[]]
  | c :: rest =>
    let r := splitChars rest
    if c = ' ' then [] :: r
    else
      match r with
      | [] => [[c]]
      | w :: ws => (c :: w) :: ws

/-- `text.split(' ')` from `handleDownload`. -/
def splitOnSpace (s : String) : List String :=
  (splitChars s.data).map String.mk

/-- The wrapping loop of `handleDownload`: `n` is the word index, `line`
the candidate line (with trailing spaces, as in the source), `lines` the
emitted lines. -/
def wrapGo (measure : String → ℚ) (maxWidth : ℚ) (ws : List String)
    (n : ℕ) (line : String) (lines : List String) : List String :=
  match ws with
  | [] => lines ++ [line]
  | w :: rest =>
    let testLine := line ++ w ++ " "
    if measure testLine > maxWidth ∧ 0 < n then
      wrapGo measure maxWidth rest (n + 1) (w ++ " ") (lines ++ [line])
    else
      wrapGo measure maxWidth rest (n + 1) testLine lines

/-- Line wrapping as the export renderer performs it. -/
def wrapText (measure : String → ℚ) (maxWidth : ℚ) (text : String) : List String :=
  wrapGo measure maxWidth (splitOnSpace text) 0 "" []

/-- The wrapping loop as the specification words it: the line is flushed
when the measurement exceeds `maxWidth` and the candidate already holds at
least one word (`cnt` counts the words accumulated in `line`). -/
def wrapGoSpec (measure : String → ℚ) (maxWidth : ℚ) (ws : List String)
    (cnt : ℕ) (line : String) (lines : List String) : List String :=
  match ws with
  | [] => lines ++ [line]
  | w :: rest =>
    let testLine := line ++ w ++ " "
    if measure testLine > maxWidth ∧ 0 < cnt then
      wrapGoSpec measure maxWidth rest 1 (w ++ " ") (lines ++ [line])
    else
      wrapGoSpec measure maxWidth rest (cnt + 1) testLine lines

/-- Line wrapping with the break condition stated on the candidate's word
count rather than the loop index. -/
def wrapTextSpec (measure : String → ℚ) (maxWidth : ℚ) (text : String) : List String :=
  wrapGoSpec measure maxWidth (splitOnSpace text) 0 "" []

/-- `lineHeight = fontSize * 1.3` from `handleDownload`. -/
def lineHeight (fontSize : ℚ) : ℚ := fontSize * (13 / 10)

/-- `totalHeight = lines.length * lineHeight` from `handleDownload`. -/
def totalHeight (lines : List String) (fontSize : ℚ) : ℚ :=
  lines.length * lineHeight fontSize

/-- The concrete measurement function of the scenario: 10px per character. -/
def measure10 (s : String) : ℚ := 10 * (s.length : ℚ)

/-- `l.trim()` as applied to the wrapped lines before drawing: strips the
spaces at both ends (the lines carry only trailing spaces). -/
def trimSpaces (s : String) : String :=
  String.mk (((s.data.dropWhile (fun c => c = ' ')).reverse.dropWhile
    (fun c => c = ' ')).reverse)

/-! ## Vertical anchor resolution (from `handleDownload`)

After wrapping, the anchor `y` (converted to canvas pixels) is shifted by
`totalHeight / 2` for `center` and by `totalHeight` for `bottom`, then line
`i` is drawn at the shifted `y` plus `i * lineHeight`. -/

/-- The `verticalAlign` adjustment applied to the pixel anchor `y`. -/
def adjustY (va : VAlign) (y totalH : ℚ) : ℚ :=
  if va = VAlign.center then y - totalH / 2
  else if va = VAlign.bottom then y - totalH
  else y

/-- The vertical draw position of line `i` in `handleDownload`:
`y = (layer.y / 100) * height` adjusted for `verticalAlign`, plus
`i * lineHeight`. -/
def drawLineY (va : VAlign) (yPct height fontSize : ℚ) (numLines i : ℕ) : ℚ :=
  let y := yPct / 100 * height
  let th := (numLines : ℚ) * lineHeight fontSize
  adjustY va y th + (i : ℚ) * lineHeight fontSize

/-! ## Interaction state machine (from the `Canvas` component)

`handleLayerMouseDown` / `handleResizeMouseDown` capture the pointer
position and the layer's `x`, `y`, `boxWidth` as the interaction baseline;
`handleMouseMove` converts the screen delta to a percentage delta and
writes the clamped new position or width. -/

/-- Which interaction is in progress (`InteractionType` in the source). -/
inductive InteractionType where
  | moving
  | resizingLeft
  | resizingRight
deriving DecidableEq

/-- The interaction state captured at pointer-down (`InteractionState` in
the source; `initX`/`initY`/`initBoxWidth` are the `initial` baseline). -/
structure InteractionState where
  type : InteractionType
  layerId : String
  startX : ℚ
  startY : ℚ
  initX : ℚ
  initY : ℚ
  initBoxWidth : ℚ
deriving DecidableEq

/-- `Math.max(5, Math.min(100, w))` — the `boxWidth` clamp. -/
def clampW (v : ℚ) : ℚ := max 5 (min 100 v)

/-- `Math.max(-20, Math.min(120, v))` — the anchor overscroll clamp. -/
def clampXY (v : ℚ) : ℚ := max (-20) (min 120 v)

/-- The screen-delta-to-percent conversion of the coordinate model:
`(deltaScreenPx / s) / dimension * 100`. -/
def pctDelta (d s dim : ℚ) : ℚ := d / s / dim * 100

/-- The `resizing_right` branch of `handleMouseMove`: the new width per
alignment, clamped to `[5, 100]`. -/
def resizeRightWidth (align : Align) (initW d : ℚ) : ℚ :=
  clampW (match align with
    | Align.left => initW + d
    | Align.center => initW + d * 2
    | Align.right => initW - d)

/-- The `resizing_left` branch of `handleMouseMove`: the new width per
alignment (left-aligned layers keep the baseline width), clamped to
`[5, 100]`. -/
def resizeLeftWidth (align : Align) (initW d : ℚ) : ℚ :=
  clampW (match align with
    | Align.right => initW - d
    | Align.center => initW - d * 2
    | Align.left => initW)

/-- The field update a pointer-move produces: either a new anchor position
or a new box width. -/
inductive LayerUpdate where
  | setPos (x y : ℚ)
  | setWidth (w : ℚ)
deriving DecidableEq

/-- The update computed by `handleMouseMove`: the screen delta relative to
the pointer-down position is divided by the effective scale
(`rect.width / project.width`), converted to a percentage of the project
dimensions, and dispatched on the interaction type. -/
def computeUpdate (inter : InteractionState) (align : Align)
    (clientX clientY rectW rectH projW projH : ℚ) : LayerUpdate :=
  let effectiveScaleX := rectW / projW
  let effectiveScaleY := rectH / projH
  let deltaXPixels := (clientX - inter.startX) / effectiveScaleX
  let deltaYPixels := (clientY - inter.startY) / effectiveScaleY
  let deltaXPct := deltaXPixels / projW * 100
  let deltaYPct := deltaYPixels / projH * 100
  match inter.type with
  | InteractionType.moving =>
      LayerUpdate.setPos (clampXY (inter.initX + deltaXPct))
        (clampXY (inter.initY + deltaYPct))
  | InteractionType.resizingRight =>
      LayerUpdate.setWidth (resizeRightWidth align inter.initBoxWidth deltaXPct)
  | InteractionType.resizingLeft =>
      LayerUpdate.setWidth (resizeLeftWidth align inter.initBoxWidth deltaXPct)

/-- Applies a computed update to a layer (`onUpdateLayer` with a partial
field record). -/
def applyUpdate : LayerUpdate → TextLayer → TextLayer
  | LayerUpdate.setPos nx ny, l => { l with x := nx, y := ny }
  | LayerUpdate.setWidth w, l => { l with boxWidth := w }

/-- `updateTextLayer` from the `App` component: map over the collection and
merge the update into the layer whose id matches. -/
def updateTextLayer (id : String) (f : TextLayer → TextLayer)
    (layers : List TextLayer) : List TextLayer :=
  layers.map (fun l => if l.id = id then f l else l)

/-- `removeTextLayer` from the `App` component. -/
def removeTextLayer (id : String) (layers : List TextLayer) : List TextLayer :=
  layers.filter (fun l => ! (l.id == id))

/-- One pointer-move event: the active interaction plus the pointer and
surface geometry at the time of the event. -/
structure MoveEventData where
  inter : InteractionState
  clientX : ℚ
  clientY : ℚ
  rectW : ℚ
  rectH : ℚ
  projW : ℚ
  projH : ℚ

/-- One `handleMouseMove` dispatch: look up the active layer (returning the
collection unchanged when it is gone) and apply the computed update through
`updateTextLayer`. -/
def handleMouseMoveStep (ev : MoveEventData) (layers : List TextLayer) :
    List TextLayer :=
  match layers.find? (fun l => l.id == ev.inter.layerId) with
  | none => layers
  | some layer =>
      updateTextLayer ev.inter.layerId
        (applyUpdate (computeUpdate ev.inter layer.align ev.clientX ev.clientY
          ev.rectW ev.rectH ev.projW ev.projH))
        layers

/-- A whole pointer-move session: fold the events over the collection. -/
def applySteps (evs : List MoveEventData) (layers : List TextLayer) :
    List TextLayer :=
  evs.foldl (fun ls ev => handleMouseMoveStep ev ls) layers

/-- The simple `Canvas` variant's `handleMouseMove`: the layer is placed at
the pointer's absolute position converted to percent and clamped to
`[0, 100]` (`newXPercent = (x / scale / project.width) * 100`). -/
def moveV3 (scale projW projH pointerX pointerY : ℚ) : ℚ × ℚ :=
  (max 0 (min 100 (pointerX / scale / projW * 100)),
   max 0 (min 100 (pointerY / scale / projH * 100)))

/-- A single clamped move starting from anchor `x` with percent delta `d`
(`newX = Math.max(-20, Math.min(120, initial.x + deltaXPct))`). -/
def dragMove (x d : ℚ) : ℚ := clampXY (x + d)

/-! ## Zoom / fit-to-screen scale -/

/-- `Math.min` on possibly-undefined operands: `undefined` (here `none`)
poisons the result, as NaN does in the source language. -/
def jsMin (a b : Option ℚ) : Option ℚ :=
  match a, b with
  | some x, some y => some (min x y)
  | _, _ => none

/-- `getEffectiveScale` of the zoomable `App` variant.  In fit mode the
source returns `Math.min(scaleX, scaleY, 1)` BEFORE the `var scaleX`/`var
scaleY` assignments; by var hoisting both are still undefined at the
return, modelled as `none`.  The assignments after the return are dead
code. -/
def getEffectiveScale (isFitToScreen : Bool) (viewportW viewportH : ℚ)
    (zoomLevel projW projH : ℚ) : Option ℚ :=
  if isFitToScreen ∧ 0 < viewportW ∧ 0 < viewportH then
    let padding : ℚ := 80
    let availableW := max 0 (viewportW - padding)
    let availableH := max 0 (viewportH - padding)
    let scaleX : Option ℚ := none
    let scaleY : Option ℚ := none
    jsMin (jsMin scaleX scaleY) (some 1)
  else some zoomLevel

/-- `handleResize` of the simple `Canvas` variant: the correctly ordered
fit computation `Math.min(availW / width, availH / height, 1)` with a
64px padding. -/
def fitScale (parentW parentH projW projH : ℚ) : ℚ :=
  let availW := parentW - 64
  let availH := parentH - 64
  min (min (availW / projW) (availH / projH)) 1

/-! ## Layout suggestion fallback (from `suggestLayout`) -/

/-- A suggested layer as returned by the layout-suggestion response schema:
`text`, `x`, `y`, `color`, `fontSize`, `align` are required, the rest
optional. -/
structure RawLayer where
  text : String
  x : ℚ
  y : ℚ
  color : String
  fontSize : ℚ
  fontWeight : String
  align : Align
  verticalAlign : Option VAlign
  fontFamily : Option String
  boxWidth : Option ℚ
deriving DecidableEq

/-- The `LayoutSuggestion` shape consumed by the generation flow. -/
structure LayoutSuggestion where
  textLayers : List RawLayer
deriving DecidableEq

/-- How the suggestion response resolves in `suggestLayout`: the text can
be absent, `JSON.parse` can throw, or parsing succeeds with some payload
(no field validation is performed on a successful parse). -/
inductive ParseOutcome where
  | noText
  | parseError
  | parsed (s : LayoutSuggestion)

/-- The hard-coded fallback suggestion of `suggestLayout`. -/
def fallbackSuggestion (brief : String) : LayoutSuggestion :=
  { textLayers :=
      [{ text := brief.toUpper, x := 50, y := 50, color := "#ffffff",
         fontSize := 8, fontWeight := "bold", align := Align.center,
         verticalAlign := some VAlign.center, fontFamily := some "Inter",
         boxWidth := some 80 }] }

/-- The `try`/`catch` around the response handling in `suggestLayout`:
missing text and parse failures fall back, successful parses are returned
unchanged. -/
def suggestLayoutResult (brief : String) (outcome : ParseOutcome) :
    LayoutSuggestion :=
  match outcome with
  | ParseOutcome.noText => fallbackSuggestion brief
  | ParseOutcome.parseError => fallbackSuggestion brief
  | ParseOutcome.parsed s => s

/-! ## Invariants and form edits -/

/-- The range invariant the specification states for every layer. -/
def inRange (l : TextLayer) : Prop :=
  5 ≤ l.boxWidth ∧ l.boxWidth ≤ 100 ∧
  -20 ≤ l.x ∧ l.x ≤ 120 ∧ -20 ≤ l.y ∧ l.y ≤ 120

instance : DecidablePred inRange := fun l => by unfold inRange; infer_instance

/-- `handleTextLayerChange(id, 'boxWidth', v)` from `ControlPanel`: the raw
field value is merged into the layer without any clamping. -/
def handleTextLayerChangeBoxWidth (id : String) (v : ℚ)
    (layers : List TextLayer) : List TextLayer :=
  updateTextLayer id (fun l => { l with boxWidth := v }) layers

/-! ## Concrete instances used by witnesses and counterexamples -/

/-- A concrete in-range layer. -/
def layerA : TextLayer :=
  { id := "a", text := "Tagline", x := 50, y := 50, color := "#ffffff",
    fontSize := 24, fontSizePct := some 3, fontFamily := "Inter",
    fontWeight := "bold", align := Align.center,
    verticalAlign := VAlign.center, boxWidth := 80 }

/-- A concrete moving interaction on `layerA`, pointer-down at the
origin. -/
def interM0 : InteractionState :=
  { type := InteractionType.moving, layerId := "a", startX := 0, startY := 0,
    initX := 50, initY := 50, initBoxWidth := 80 }

/-- A concrete right-handle resize interaction on `layerA`. -/
def interR0 : InteractionState :=
  { type := InteractionType.resizingRight, layerId := "a", startX := 0,
    startY := 0, initX := 50, initY := 50, initBoxWidth := 80 }

/-- A concrete left-handle resize interaction on `layerA`. -/
def interL0 : InteractionState :=
  { type := InteractionType.resizingLeft, layerId := "a", startX := 0,
    startY := 0, initX := 50, initY := 50, initBoxWidth := 80 }

/-- A concrete pointer-move event for `interM0` at unit scale on a 100×100
project. -/
def evM0 : MoveEventData :=
  { inter := interM0, clientX := 30, clientY := 40, rectW := 100,
    rectH := 100, projW := 100, projH := 100 }

/-! ## Helper lemmas -/

lemma wrapGo_eq_spec (measure : String → ℚ) (maxWidth : ℚ) :
    ∀ (ws : List String) (n cnt : ℕ) (line : String) (lines : List String),
      (0 < n ↔ 0 < cnt) →
      wrapGo measure maxWidth ws n line lines
        = wrapGoSpec measure maxWidth ws cnt line lines := by
  intro ws
  induction ws with
  | nil => intro n cnt line lines _; rfl
  | cons w rest ih =>
    intro n cnt line lines h
    rw [wrapGo, wrapGoSpec]
    by_cases hm : measure (line ++ w ++ " ") > maxWidth
    · by_cases hn : 0 < n
      · rw [if_pos ⟨hm, hn⟩, if_pos ⟨hm, h.mp hn⟩]
        exact ih (n + 1) 1 _ _ (by simp)
      · have hc : ¬ 0 < cnt := fun hcc => hn (h.mpr hcc)
        rw [if_neg (fun hh => hn hh.2), if_neg (fun hh => hc hh.2)]
        exact ih (n + 1) (cnt + 1) _ _ (by simp)
    · rw [if_neg (fun hh => hm hh.1), if_neg (fun hh => hm hh.1)]
      exact ih (n + 1) (cnt + 1) _ _ (by simp)

lemma clampW_bounds (v : ℚ) : 5 ≤ clampW v ∧ clampW v ≤ 100 :=
  ⟨le_max_left _ _, max_le (by norm_num) (min_le_left _ _)⟩

lemma clampXY_bounds (v : ℚ) : -20 ≤ clampXY v ∧ clampXY v ≤ 120 :=
  ⟨le_max_left _ _, max_le (by norm_num) (min_le_left _ _)⟩

lemma applyUpdate_computeUpdate_inRange (inter : InteractionState) (a : Align)
    (cX cY rW rH pw ph : ℚ) (l : TextLayer) (h : inRange l) :
    inRange (applyUpdate (computeUpdate inter a cX cY rW rH pw ph) l) := by
  obtain ⟨ty, lid, sx, sy, ix, iy, ibw⟩ := inter
  obtain ⟨h1, h2, h3, h4, h5, h6⟩ := h
  cases ty
  · exact ⟨h1, h2, (clampXY_bounds _).1, (clampXY_bounds _).2,
      (clampXY_bounds _).1, (clampXY_bounds _).2⟩
  · exact ⟨(clampW_bounds _).1, (clampW_bounds _).2, h3, h4, h5, h6⟩
  · exact ⟨(clampW_bounds _).1, (clampW_bounds _).2, h3, h4, h5, h6⟩

lemma handleMouseMoveStep_inRange (ev : MoveEventData)
    (layers : List TextLayer) (h : ∀ l ∈ layers, inRange l) :
    ∀ l ∈ handleMouseMoveStep ev layers, inRange l := by
  unfold handleMouseMoveStep
  split
  · exact h
  · intro l hl
    unfold updateTextLayer at hl
    rw [List.mem_map] at hl
    obtain ⟨l0, hl0, rfl⟩ := hl
    by_cases hid : l0.id = ev.inter.layerId
    · rw [if_pos hid]
      exact applyUpdate_computeUpdate_inRange _ _ _ _ _ _ _ _ _ (h l0 hl0)
    · rw [if_neg hid]
      exact h l0 hl0

lemma applySteps_inRange :
    ∀ (evs : List MoveEventData) (layers : List TextLayer),
      (∀ l ∈ layers, inRange l) → ∀ l ∈ applySteps evs layers, inRange l := by
  intro evs
  induction evs with
  | nil => intro layers h; exact h
  | cons e es ih =>
    intro layers h
    exact ih _ (handleMouseMoveStep_inRange e layers h)

lemma applyUpdate_id (u : LayerUpdate) (l : TextLayer) :
    (applyUpdate u l).id = l.id := by
  cases u <;> rfl

lemma updateTextLayer_map_id (id : String) (f : TextLayer → TextLayer)
    (hf : ∀ l, (f l).id = l.id) :
    ∀ layers : List TextLayer,
      (updateTextLayer id f layers).map TextLayer.id
        = layers.map TextLayer.id := by
  intro layers
  induction layers with
  | nil => rfl
  | cons a as ih =>
    simp only [updateTextLayer, List.map_cons] at ih ⊢
    rw [ih]
    by_cases h : a.id = id
    · rw [if_pos h, hf]
    · rw [if_neg h]

lemma handleMouseMoveStep_ids (ev : MoveEventData) (layers : List TextLayer) :
    (handleMouseMoveStep ev layers).map TextLayer.id
      = layers.map TextLayer.id := by
  unfold handleMouseMoveStep
  split
  · rfl
  · exact updateTextLayer_map_id _ _ (fun l => applyUpdate_id _ _) _

lemma applySteps_ids :
    ∀ (evs : List MoveEventData) (layers : List TextLayer),
      (applySteps evs layers).map TextLayer.id = layers.map TextLayer.id := by
  intro evs
  induction evs with
  | nil => intro layers; rfl
  | cons e es ih =>
    intro layers
    calc (applySteps es (handleMouseMoveStep e layers)).map TextLayer.id
        = (handleMouseMoveStep e layers).map TextLayer.id := ih _
      _ = layers.map TextLayer.id := handleMouseMoveStep_ids e layers

lemma updateTextLayer_no_match (id : String) (f : TextLayer → TextLayer) :
    ∀ layers : List TextLayer, (∀ l ∈ layers, l.id ≠ id) →
      updateTextLayer id f layers = layers := by
  intro layers
  induction layers with
  | nil => intro _; rfl
  | cons a as ih =>
    intro h
    show (if a.id = id then f a else a) :: updateTextLayer id f as = a :: as
    rw [if_neg (h a (List.mem_cons_self a as)),
      ih (fun l hl => h l (List.mem_cons_of_mem a hl))]

/-! ## Claim theorems -/

/-- C1: the export renderer's line wrapper is the greedy word wrap the spec
describes: it splits on spaces, measures the candidate line extended with
each word, closes the line exactly when the measured width exceeds
`maxWidth` and the candidate already holds at least one word, flushes the
remaining candidate after the final word, and uses
`lineHeight = fontSize * 1.3` with `totalHeight = lineCount * lineHeight` —
for every text, maximum width and measurement function. -/
theorem wrap_is_greedy_wordwrap :
    ∀ (measure : String → ℚ) (maxWidth : ℚ) (text : String) (fontSize : ℚ),
      wrapText measure maxWidth text = wrapTextSpec measure maxWidth text ∧
      lineHeight fontSize = fontSize * (13 / 10) ∧
      totalHeight (wrapText measure maxWidth text) fontSize
        = (wrapText measure maxWidth text).length * lineHeight fontSize :=
  fun measure maxWidth text fontSize =>
    ⟨wrapGo_eq_spec measure maxWidth (splitOnSpace text) 0 0 "" [] (by simp),
     rfl, rfl⟩

/-- C3: with `y` the anchor converted to canvas pixels and
`totalHeight = numLines * lineHeight`, the first line's top is `y` for
`top`, `y - totalHeight/2` for `center` and `y - totalHeight` for `bottom`,
and line `i`'s top is the first line's top plus `i * lineHeight`. -/
theorem vertical_anchor_resolution :
    ∀ (yPct height fontSize : ℚ) (va : VAlign) (numLines i : ℕ),
      drawLineY va yPct height fontSize numLines i
        = drawLineY va yPct height fontSize numLines 0
            + (i : ℚ) * lineHeight fontSize ∧
      drawLineY VAlign.top yPct height fontSize numLines 0
        = yPct / 100 * height ∧
      drawLineY VAlign.center yPct height fontSize numLines 0
        = yPct / 100 * height - (numLines : ℚ) * lineHeight fontSize / 2 ∧
      drawLineY VAlign.bottom yPct height fontSize numLines 0
        = yPct / 100 * height - (numLines : ℚ) * lineHeight fontSize := by
  intro yPct height fontSize va numLines i
  refine ⟨?_, ?_, ?_, ?_⟩
  · cases va <;> simp [drawLineY, adjustY]
  · simp [drawLineY, adjustY]
  · simp [drawLineY, adjustY]
  · simp [drawLineY, adjustY]

/-- C4: the resize updates are exactly `width + deltaXPct` for a left-
aligned layer's right handle, `width - deltaXPct` for a right-aligned
layer's left handle, `width ± 2 * deltaXPct` for a center-aligned layer's
right/left handle, clamped to `[5, 100]`; and a resize pointer-move
computes the new width from the baseline `boxWidth` captured at
pointer-down (`initial.boxWidth`), not from the layer's current width. -/
theorem resize_semantics :
    (∀ w d : ℚ, resizeRightWidth Align.left w d = clampW (w + d)) ∧
    (∀ w d : ℚ, resizeLeftWidth Align.right w d = clampW (w - d)) ∧
    (∀ w : ℚ, resizeLeftWidth Align.right w 5 = clampW (w - 5)) ∧
    (∀ w d : ℚ, resizeRightWidth Align.center w d = clampW (w + d * 2)) ∧
    (∀ w d : ℚ, resizeLeftWidth Align.center w d = clampW (w - d * 2)) ∧
    (∀ (a : Align) (w d : ℚ),
      5 ≤ resizeRightWidth a w d ∧ resizeRightWidth a w d ≤ 100 ∧
      5 ≤ resizeLeftWidth a w d ∧ resizeLeftWidth a w d ≤ 100) ∧
    (∀ (inter : InteractionState) (a : Align) (cX cY rW rH pw ph : ℚ)
        (l : TextLayer),
      inter.type = InteractionType.resizingRight →
        applyUpdate (computeUpdate inter a cX cY rW rH pw ph) l
          = { l with boxWidth := resizeRightWidth a inter.initBoxWidth (pctDelta (cX - inter.startX) (rW / pw) pw) }) ∧
    (∀ (inter : InteractionState) (a : Align) (cX cY rW rH pw ph : ℚ)
        (l : TextLayer),
      inter.type = InteractionType.resizingLeft →
        applyUpdate (computeUpdate inter a cX cY rW rH pw ph) l
          = { l with boxWidth := resizeLeftWidth a inter.initBoxWidth (pctDelta (cX - inter.startX) (rW / pw) pw) }) := by
  refine ⟨fun w d => rfl, fun w d => rfl, fun w => rfl, fun w d => rfl,
    fun w d => rfl,
    fun a w d => ⟨(clampW_bounds _).1, (clampW_bounds _).2,
      (clampW_bounds _).1, (clampW_bounds _).2⟩, ?_, ?_⟩
  · intro inter a cX cY rW rH pw ph l h
    obtain ⟨ty, lid, sx, sy, ix, iy, ibw⟩ := inter
    cases h
    rfl
  · intro inter a cX cY rW rH pw ph l h
    obtain ⟨ty, lid, sx, sy, ix, iy, ibw⟩ := inter
    cases h
    rfl

/-- C5 amended: in the interaction-state `Canvas` variants a pointer-move
in the moving state sets the anchor to
`clamp(anchorStart + pctDelta, -20, 120)` per axis, with the baseline
captured at pointer-down; in the simple `Canvas` variant the anchor is
instead set to the pointer's absolute position converted to percent and
clamped to `[0, 100]`. -/
theorem move_update_semantics :
    (∀ (inter : InteractionState) (a : Align) (cX cY rW rH pw ph : ℚ),
      inter.type = InteractionType.moving →
        computeUpdate inter a cX cY rW rH pw ph
          = LayerUpdate.setPos
              (clampXY (inter.initX + pctDelta (cX - inter.startX) (rW / pw) pw))
              (clampXY (inter.initY + pctDelta (cY - inter.startY) (rH / ph) ph))) ∧
    (∀ scale pw ph px py : ℚ,
      moveV3 scale pw ph px py
        = (max 0 (min 100 (pctDelta px scale pw)),
           max 0 (min 100 (pctDelta py scale ph)))) := by
  refine ⟨?_, fun scale pw ph px py => rfl⟩
  intro inter a cX cY rW rH pw ph h
  obtain ⟨ty, lid, sx, sy, ix, iy, ibw⟩ := inter
  cases h
  rfl

/-- C6 amended: the percent delta is scale-independent
(`pctDelta (-(d * s2 / s1)) s2 dim = -(pctDelta d s1 dim)` for positive
scales), and a drag of `d` screen pixels followed by the equivalent inverse
drag returns the anchor to its original position PROVIDED the intermediate
position `x + pctDelta d s1 dim` stays inside the `[-20, 120]` clamp
range. -/
theorem drag_roundtrip_amended :
    ∀ (x d s1 s2 dim : ℚ), 0 < s1 → 0 < s2 →
      -20 ≤ x → x ≤ 120 →
      -20 ≤ x + pctDelta d s1 dim → x + pctDelta d s1 dim ≤ 120 →
      pctDelta (-(d * s2 / s1)) s2 dim = -pctDelta d s1 dim ∧
      dragMove (dragMove x (pctDelta d s1 dim))
        (pctDelta (-(d * s2 / s1)) s2 dim) = x := by
  intro x d s1 s2 dim hs1 hs2 hx1 hx2 hm1 hm2
  have hs2n : s2 ≠ 0 := ne_of_gt hs2
  have hneg : pctDelta (-(d * s2 / s1)) s2 dim = -pctDelta d s1 dim := by
    unfold pctDelta
    rw [show -(d * s2 / s1) = -(d / s1) * s2 from by ring,
      mul_div_cancel_right₀ _ hs2n]
    ring
  refine ⟨hneg, ?_⟩
  rw [hneg]
  unfold dragMove clampXY
  rw [min_eq_right hm2, max_eq_right hm1]
  have hsum : x + pctDelta d s1 dim + -pctDelta d s1 dim = x := by ring
  rw [hsum, min_eq_right hx2, max_eq_right hx1]

/-- C7: the fit-mode branch of `getEffectiveScale` in the zoomable `App`
variant returns `Math.min` of `scaleX`/`scaleY` read before their
assignment, so for a positive viewport it yields an undefined (NaN) scale
rather than `min(availW/canvasW, availH/canvasH, 1)`; the simple `Canvas`
variant's `handleResize` computes exactly that formula, and its result
never exceeds 1. -/
theorem fit_scale_bug_and_fix :
    getEffectiveScale true 1000 1000 1 1080 1350 = none ∧
    (∀ parentW parentH projW projH : ℚ,
      fitScale parentW parentH projW projH
        = min (min ((parentW - 64) / projW) ((parentH - 64) / projH)) 1 ∧
      fitScale parentW parentH projW projH ≤ 1) := by
  refine ⟨by decide, fun parentW parentH projW projH => ⟨rfl, min_le_right _ _⟩⟩

/-- C8 amended: every interactive drag/resize update writes clamped values,
so after any sequence of pointer-move events a collection whose layers
started inside the ranges (`boxWidth ∈ [5,100]`, `x, y ∈ [-20,120]`) stays
inside them, and the sequence preserves the list of layer ids (hence their
uniqueness); the form-edit and suggestion-mapping paths, by contrast, do
not clamp. -/
theorem interactive_updates_preserve_invariants :
    ∀ (evs : List MoveEventData) (layers : List TextLayer),
      (∀ l ∈ layers, inRange l) →
      (∀ l ∈ applySteps evs layers, inRange l) ∧
      (applySteps evs layers).map TextLayer.id = layers.map TextLayer.id :=
  fun evs layers h => ⟨applySteps_inRange evs layers h, applySteps_ids evs layers⟩

/-- C9 amended: `suggestLayout` substitutes the single centered fallback
layer (brief uppercased, fontSize percentage 8, boxWidth 80) exactly when
the response text is missing or `JSON.parse` throws; a successfully parsed
payload — even an empty `textLayers` array or objects missing fields — is
returned unchanged, with no validation. -/
theorem suggestion_fallback_semantics :
    ∀ (brief : String) (s : LayoutSuggestion),
      suggestLayoutResult brief ParseOutcome.noText = fallbackSuggestion brief ∧
      suggestLayoutResult brief ParseOutcome.parseError
        = fallbackSuggestion brief ∧
      suggestLayoutResult brief (ParseOutcome.parsed s) = s ∧
      (fallbackSuggestion brief).textLayers
        = [{ text := brief.toUpper, x := 50, y := 50, color := "#ffffff",
             fontSize := 8, fontWeight := "bold", align := Align.center,
             verticalAlign := some VAlign.center, fontFamily := some "Inter",
             boxWidth := some 80 }] :=
  fun brief s => ⟨rfl, rfl, rfl, rfl⟩

/-- C10: a moving pointer-move changes only the layer's `x` and `y`; a
resizing pointer-move changes only its `boxWidth`; and `updateTextLayer`
preserves the collection's length, leaves every layer whose id differs from
the target unchanged at its position, and is the identity when no layer has
the given id. -/
theorem frame_effects :
    (∀ (inter : InteractionState) (a : Align) (cX cY rW rH pw ph : ℚ)
        (l : TextLayer),
      inter.type = InteractionType.moving →
        (applyUpdate (computeUpdate inter a cX cY rW rH pw ph) l).boxWidth
            = l.boxWidth ∧
        (applyUpdate (computeUpdate inter a cX cY rW rH pw ph) l).text
            = l.text ∧
        (applyUpdate (computeUpdate inter a cX cY rW rH pw ph) l).color
            = l.color ∧
        (applyUpdate (computeUpdate inter a cX cY rW rH pw ph) l).fontSize
            = l.fontSize ∧
        (applyUpdate (computeUpdate inter a cX cY rW rH pw ph) l).fontFamily
            = l.fontFamily ∧
        (applyUpdate (computeUpdate inter a cX cY rW rH pw ph) l).fontWeight
            = l.fontWeight ∧
        (applyUpdate (computeUpdate inter a cX cY rW rH pw ph) l).align
            = l.align ∧
        (applyUpdate (computeUpdate inter a cX cY rW rH pw ph) l).verticalAlign
            = l.verticalAlign ∧
        (applyUpdate (computeUpdate inter a cX cY rW rH pw ph) l).id = l.id) ∧
    (∀ (inter : InteractionState) (a : Align) (cX cY rW rH pw ph : ℚ)
        (l : TextLayer),
      inter.type = InteractionType.resizingLeft ∨
          inter.type = InteractionType.resizingRight →
        (applyUpdate (computeUpdate inter a cX cY rW rH pw ph) l).x = l.x ∧
        (applyUpdate (computeUpdate inter a cX cY rW rH pw ph) l).y = l.y ∧
        (applyUpdate (computeUpdate inter a cX cY rW rH pw ph) l).text
            = l.text ∧
        (applyUpdate (computeUpdate inter a cX cY rW rH pw ph) l).id = l.id) ∧
    (∀ (id : String) (f : TextLayer → TextLayer) (layers : List TextLayer),
      (updateTextLayer id f layers).length = layers.length ∧
      ∀ (i : ℕ) (l : TextLayer), layers.get? i = some l → l.id ≠ id →
        (updateTextLayer id f layers).get? i = some l) ∧
    (∀ (id : String) (f : TextLayer → TextLayer) (layers : List TextLayer),
      (∀ l ∈ layers, l.id ≠ id) → updateTextLayer id f layers = layers) := by
  refine ⟨?_, ?_, ?_, fun id f layers h => updateTextLayer_no_match id f layers h⟩
  · intro inter a cX cY rW rH pw ph l h
    obtain ⟨ty, lid, sx, sy, ix, iy, ibw⟩ := inter
    cases h
    exact ⟨rfl, rfl, rfl, rfl, rfl, rfl, rfl, rfl, rfl⟩
  · intro inter a cX cY rW rH pw ph l h
    obtain ⟨ty, lid, sx, sy, ix, iy, ibw⟩ := inter
    rcases h with h | h
    · cases h
      exact ⟨rfl, rfl, rfl, rfl⟩
    · cases h
      exact ⟨rfl, rfl, rfl, rfl⟩
  · intro id f layers
    refine ⟨List.length_map _ _, ?_⟩
    intro i l hget hne
    unfold updateTextLayer
    rw [List.get?_map, hget]
    show some (if l.id = id then f l else l) = some l
    rw [if_neg hne]

end GenStudio

set_option allowUnsafeReducibility true in
attribute [semireducible] Rat.mul Rat.add Rat.sub Rat.inv

namespace GenStudio

/-- C2 counterexample: with the 10px-per-character measurement, wrapping
"HELLO WORLD FOO" at `maxWidth = 108` produces TWO lines — "WORLD FOO "
measures 100px, which does not exceed 108 — not the three lines
["HELLO", "WORLD", "FOO"] the claim states. -/
theorem wrap_scenario_counterexample :
    (wrapText measure10 (108 : ℚ) "HELLO WORLD FOO").length = 2 ∧
    (wrapText measure10 (108 : ℚ) "HELLO WORLD FOO").map trimSpaces
      = ["HELLO", "WORLD FOO"] ∧
    (wrapText measure10 (108 : ℚ) "HELLO WORLD FOO").map trimSpaces
      ≠ ["HELLO", "WORLD", "FOO"] := by
  refine ⟨by decide, by decide, by decide⟩

/-- C2 amended: at `maxWidth = 540` the text stays on a single line, and at
`maxWidth = 108` (boxWidth 10 on a 1080-wide canvas) it wraps into exactly
the two lines "HELLO" and "WORLD FOO" (after trailing-space trimming),
each at most 10 characters, broken on word boundaries. -/
theorem wrap_scenario_amended :
    wrapText measure10 (540 : ℚ) "HELLO WORLD FOO" = ["HELLO WORLD FOO "] ∧
    (wrapText measure10 (108 : ℚ) "HELLO WORLD FOO").map trimSpaces
      = ["HELLO", "WORLD FOO"] ∧
    ((wrapText measure10 (108 : ℚ) "HELLO WORLD FOO").map trimSpaces).all
      (fun l => l.length ≤ 10) = true := by
  refine ⟨by decide, by decide, by decide⟩

/-- C4 witness: a right-handle resize on a left-aligned layer with a 7px
pointer delta at unit scale yields `boxWidth = 87` from the baseline 80,
and a left-handle resize on a right-aligned layer with a 5px delta yields
75. -/
theorem resize_semantics_witness :
    applyUpdate (computeUpdate interR0 Align.left 7 9 100 100 100 100) layerA
      = { layerA with boxWidth := 87 } ∧
    applyUpdate (computeUpdate interL0 Align.right 5 9 100 100 100 100) layerA
      = { layerA with boxWidth := 75 } := by
  constructor
  · rw [resize_semantics.2.2.2.2.2.2.1 interR0 Align.left 7 9 100 100 100 100
      layerA rfl]
    decide
  · rw [resize_semantics.2.2.2.2.2.2.2 interL0 Align.right 5 9 100 100 100 100
      layerA rfl]
    decide

/-- C5 counterexample: in the simple `Canvas` variant, with anchor start
`(0, 0)`, unit scale, a 100×100 project and the pointer moving −50px on
both axes, the layer is placed at `(0, 0)` — the claimed formula
`clamp(anchorStart + deltaXPct, -20, 120)` gives −20 instead. -/
theorem move_absolute_counterexample :
    moveV3 1 100 100 (-50) (-50) = (0, 0) ∧
    clampXY (0 + pctDelta (-50 - 0) 1 100) = -20 ∧
    ((0 : ℚ), (0 : ℚ)) ≠ ((-20 : ℚ), (-20 : ℚ)) := by
  refine ⟨by decide, by decide, by decide⟩

/-- C5 witness: a concrete moving pointer-move from baseline `(50, 50)`
with pointer delta `(30, 40)` at unit scale on a 100×100 project. -/
theorem move_update_semantics_witness :
    computeUpdate interM0 Align.center 30 40 100 100 100 100
      = LayerUpdate.setPos
          (clampXY (interM0.initX + pctDelta (30 - interM0.startX) (100 / 100) 100))
          (clampXY (interM0.initY + pctDelta (40 - interM0.startY) (100 / 100) 100)) :=
  move_update_semantics.1 interM0 Align.center 30 40 100 100 100 100 rfl

/-- C6 counterexample: from anchor 50 (inside the clamp range) a drag with
percent delta 100 saturates the clamp at 120, and the inverse drag lands at
20, not back at 50 — the round trip fails when the clamp saturates. -/
theorem drag_roundtrip_counterexample :
    (0 : ℚ) < 1 ∧ (-20 : ℚ) ≤ 50 ∧ (50 : ℚ) ≤ 120 ∧
    dragMove (dragMove 50 (pctDelta 100 1 100))
      (pctDelta (-(100 * 1 / 1)) 1 100) = 20 ∧
    (20 : ℚ) ≠ 50 := by
  refine ⟨by decide, by decide, by decide, by decide, by decide⟩

/-- C6 witness: a drag of 10px at scale 1 from anchor 50 on a 100-wide
canvas, un-dragged by the equivalent pixels at scale 2, returns exactly to
50. -/
theorem drag_roundtrip_witness :
    (0 : ℚ) < 1 ∧ (0 : ℚ) < 2 ∧ (-20 : ℚ) ≤ 50 ∧ (50 : ℚ) ≤ 120 ∧
    -20 ≤ (50 : ℚ) + pctDelta 10 1 100 ∧ (50 : ℚ) + pctDelta 10 1 100 ≤ 120 ∧
    dragMove (dragMove 50 (pctDelta 10 1 100))
      (pctDelta (-(10 * 2 / 1)) 2 100) = 50 := by
  refine ⟨by decide, by decide, by decide, by decide, by decide, by decide,
    (drag_roundtrip_amended 50 10 1 2 100 (by decide) (by decide) (by decide)
      (by decide) (by decide) (by decide)).2⟩

/-- C8 counterexample: the form-edit path (`handleTextLayerChange` on the
Width field) writes the raw value: setting `boxWidth` to 500 on an in-range
layer leaves the collection with `boxWidth = 500`, outside `[5, 100]`. -/
theorem form_edit_unclamped_counterexample :
    (∀ l ∈ [layerA], inRange l) ∧
    (handleTextLayerChangeBoxWidth "a" 500 [layerA]).map TextLayer.boxWidth
      = [500] ∧
    ¬ ((500 : ℚ) ≤ 100) := by
  refine ⟨by decide, by decide, by decide⟩

/-- C8 witness: one concrete moving pointer-move on the in-range `layerA`
keeps every layer in range and preserves the id list. -/
theorem interactive_updates_preserve_invariants_witness :
    (∀ l ∈ [layerA], inRange l) ∧
    (∀ l ∈ applySteps [evM0] [layerA], inRange l) ∧
    (applySteps [evM0] [layerA]).map TextLayer.id = ["a"] := by
  have h : ∀ l ∈ [layerA], inRange l := by decide
  have h2 := interactive_updates_preserve_invariants [evM0] [layerA] h
  refine ⟨h, h2.1, ?_⟩
  rw [h2.2]
  rfl

/-- C9 counterexample: a well-formed response whose `textLayers` array is
empty parses successfully, so `suggestLayout` returns zero layers — not the
single fallback layer the claim requires for that case. -/
theorem suggestion_empty_array_counterexample :
    suggestLayoutResult "SUMMER SALE" (ParseOutcome.parsed ⟨[]⟩) = ⟨[]⟩ ∧
    (suggestLayoutResult "SUMMER SALE"
      (ParseOutcome.parsed ⟨[]⟩)).textLayers.length = 0 ∧
    (0 : ℕ) ≠ 1 :=
  ⟨rfl, rfl, by decide⟩

/-- C10 witness: concrete frame-effect checks — a moving update on `layerA`
keeps its width, a resizing update keeps its position, and an update
targeting an absent id is the identity. -/
theorem frame_effects_witness :
    (applyUpdate (computeUpdate interM0 Align.center 30 40 100 100 100 100)
        layerA).boxWidth = layerA.boxWidth ∧
    (applyUpdate (computeUpdate interR0 Align.left 7 9 100 100 100 100)
        layerA).x = layerA.x ∧
    (updateTextLayer "zzz" (fun l => { l with x := 0 }) [layerA]).get? 0
      = some layerA ∧
    updateTextLayer "zzz" (fun l => { l with x := 0 }) [layerA] = [layerA] := by
  refine ⟨(frame_effects.1 interM0 Align.center 30 40 100 100 100 100 layerA
      rfl).1,
    (frame_effects.2.1 interR0 Align.left 7 9 100 100 100 100 layerA
      (Or.inr rfl)).1,
    (frame_effects.2.2.1 "zzz" (fun l => { l with x := 0 }) [layerA]).2 0
      layerA rfl (by decide),
    frame_effects.2.2.2 "zzz" (fun l => { l with x := 0 }) [layerA]
      (by decide)⟩

end GenStudio
